import Mathlib

/-!
Verification development for the blog-api session core: permission model
(src/types/permissions.ts, src/utils/permissions), credential codec
(src/utils/jsonwebtoken.ts over the jsonwebtoken library), refresh session
store (src/controllers/RefreshTokenController.ts and
src/database/models/RefreshTokenModel.ts), and the login / refresh-token
route handlers (src/routes/auth).  Each definition is a shallow embedding of
the corresponding source function; oracles (`Bool` parameters) stand for the
success or failure of external effects that the source wraps in try/catch.
-/

namespace BlogApi

/-- Capability bit constants, from `enum PermissionsBitfield`
(src/types/permissions.ts lines 6-10): DEFAULT = 1 << 0, MANAGE_BLOG = 1 << 1,
MANAGE_USERS = 1 << 2. -/
def PermissionsBitfield.DEFAULT : Nat := 1 <<< 0

/-- `MANAGE_BLOG = 1 << 1` from src/types/permissions.ts. -/
def PermissionsBitfield.MANAGE_BLOG : Nat := 1 <<< 1

/-- `MANAGE_USERS = 1 << 2` from src/types/permissions.ts. -/
def PermissionsBitfield.MANAGE_USERS : Nat := 1 <<< 2

/-- The fixed closed set of role names, from `enum RoleNames`
(src/types/permissions.ts lines 16-20). -/
inductive RoleNames where
  | user
  | moderator
  | admin
deriving DecidableEq

/-- The static role → capability-list table `rolePermissions`
(src/types/permissions.ts lines 34-45). -/
def rolePermissions : RoleNames → List Nat
  | .user => [PermissionsBitfield.DEFAULT]
  | .moderator => [PermissionsBitfield.DEFAULT, PermissionsBitfield.MANAGE_BLOG]
  | .admin => [PermissionsBitfield.DEFAULT, PermissionsBitfield.MANAGE_BLOG,
      PermissionsBitfield.MANAGE_USERS]

/-- `calculatePermissions` (src/utils/permissions.ts): reduce of the role's
permission list with bitwise OR, initial accumulator 0. -/
def calculatePermissions (role : RoleNames) : Nat :=
  (rolePermissions role).foldl (fun acc perm => acc ||| perm) 0

/-- The environment-derived configuration object (src/utils/configuration.ts
lines 63-87), restricted to the fields the session core reads.  `EXPIRES_IN`
and `REFRESH_TOKEN_EXPIRES_IN` are the numeric values of the corresponding
environment variables; the jsonwebtoken library interprets such numeric
`expiresIn` options as a lifetime in seconds. -/
structure Configuration where
  SECRET_KEY : String
  EXPIRES_IN : Nat
  REFRESH_TOKEN_SECRET_KEY : String
  REFRESH_TOKEN_EXPIRES_IN : Nat
deriving DecidableEq

/-- The JWT payload `IPayload` embedded in both tokens (built in
src/routes/auth/login.ts lines 261-266): user id, role, permissions bitfield
and full name.  The Mongo ObjectId (`existingUser._id` / `existingUser.id`
are the same identifier in its raw and string form) is modelled as a `Nat`. -/
structure IPayload where
  id : Nat
  role : RoleNames
  permissions : Nat
  full_name : String
deriving DecidableEq

/-- Model of a signed JWT as produced by `jwt.sign(payload, secret,
{expiresIn})`: the claims set (payload, `iat` = signing time in seconds since
epoch, `exp` = `iat` + lifetime in seconds) together with the signing secret.
Two signed tokens serialize to the same string iff all four components agree
(HMAC signing is deterministic), and HMAC integrity is idealized: a token
authenticates under a secret iff it was signed with that exact secret. -/
structure SignedToken where
  payload : IPayload
  iat : Nat
  exp : Nat
  secret : String
deriving DecidableEq

/-- `jwt.sign(payload, secretKey, {expiresIn})` at second-granularity time
`nowSec`: the token carries `iat = nowSec` and `exp = nowSec + expiresIn`. -/
def jwtSign (payload : IPayload) (secretKey : String) (expiresIn : Nat)
    (nowSec : Nat) : SignedToken :=
  { payload := payload, iat := nowSec, exp := nowSec + expiresIn,
    secret := secretKey }

/-- `jwt.verify(token, secretKey)` at time `nowSec`: succeeds with the decoded
payload iff the signature checks out (idealized: the token's signing secret is
`secretKey`) and the token is not expired.  The library rejects a token once
`clockTimestamp >= exp` (zero clock tolerance), so validity is `nowSec <
exp`. -/
def jwtVerify (token : SignedToken) (secretKey : String) (nowSec : Nat) :
    Option IPayload :=
  if token.secret = secretKey ∧ nowSec < token.exp then some token.payload
  else none

/-- Result shape `ITokenResult` returned by `generateAccessToken`. -/
structure ITokenResult where
  accessToken : SignedToken
  expiresIn : Nat
deriving DecidableEq

/-- Result shape `IRefreshTokenResult` returned by `generateRefreshToken`. -/
structure IRefreshTokenResult where
  refreshToken : SignedToken
deriving DecidableEq

/-- `generateAccessToken` (src/utils/jsonwebtoken.ts lines 15-40): signs the
payload with `SECRET_KEY` and lifetime `EXPIRES_IN`, returning the token and
its lifetime; the catch branch (signing primitive threw) returns null, which
the oracle `signOk = false` models. -/
def generateAccessToken (cfg : Configuration) (signOk : Bool)
    (payload : IPayload) (nowSec : Nat) : Option ITokenResult :=
  if signOk then
    some { accessToken := jwtSign payload cfg.SECRET_KEY cfg.EXPIRES_IN nowSec,
           expiresIn := cfg.EXPIRES_IN }
  else none

/-- `generateRefreshToken` (src/utils/jsonwebtoken.ts lines 47-71): signs the
payload with `REFRESH_TOKEN_SECRET_KEY` and lifetime
`REFRESH_TOKEN_EXPIRES_IN`; null on signing failure. -/
def generateRefreshToken (cfg : Configuration) (signOk : Bool)
    (payload : IPayload) (nowSec : Nat) : Option IRefreshTokenResult :=
  if signOk then
    some { refreshToken := jwtSign payload cfg.REFRESH_TOKEN_SECRET_KEY
             cfg.REFRESH_TOKEN_EXPIRES_IN nowSec }
  else none

/-- `verifyToken` (src/utils/jsonwebtoken.ts lines 79-94): `jwt.verify`, with
the catch branch (invalid signature, malformed token, expired) collapsed to
`none`. -/
def verifyToken (token : SignedToken) (secret_key : String) (nowSec : Nat) :
    Option IPayload :=
  jwtVerify token secret_key nowSec

/-- `verifyAccessToken` (src/utils/jsonwebtoken.ts lines 101-105):
`verifyToken` pinned to `SECRET_KEY`. -/
def verifyAccessToken (cfg : Configuration) (token : SignedToken)
    (nowSec : Nat) : Option IPayload :=
  verifyToken token cfg.SECRET_KEY nowSec

/-- `verifyRefreshToken` (src/utils/jsonwebtoken.ts lines 112-119):
`verifyToken` pinned to `REFRESH_TOKEN_SECRET_KEY`. -/
def verifyRefreshToken (cfg : Configuration) (token : SignedToken)
    (nowSec : Nat) : Option IPayload :=
  verifyToken token cfg.REFRESH_TOKEN_SECRET_KEY nowSec

/-- A persisted refresh-token document: the `IRefreshToken` fields of
refreshTokenSchema (src/database/models/RefreshTokenModel.ts lines 29-58)
plus `createdAt` (default `Date.now`).  `expiresAt` and `createdAt` are
`Date` values, i.e. milliseconds since epoch.  The token string column is
modelled by the `SignedToken` it serializes (serialization is injective). -/
structure RefreshTokenRecord where
  userId : Nat
  refreshToken : SignedToken
  expiresAt : Nat
  userAgent : String
  createdAt : Nat
deriving DecidableEq

/-- The `refresh_tokens` Mongo collection, as a list of documents. -/
def RefreshTokenStore : Type := List RefreshTokenRecord

/-- The TTL index `refreshTokenSchema.index({expiresAt: 1},
{expireAfterSeconds: 0})` (src/database/models/RefreshTokenModel.ts lines
64-67): the collection auto-purges a document once its `expiresAt` has
passed, so at millisecond time `nowMs` the documents visible to a query are
those with `nowMs < expiresAt`. -/
def ttlPurge (nowMs : Nat) (store : List RefreshTokenRecord) :
    List RefreshTokenRecord :=
  store.filter (fun r => decide (nowMs < r.expiresAt))

/-- `RefreshTokenController.revokeUserRefreshTokensByUserAgent`
(src/controllers/RefreshTokenController.ts lines 21-39):
`deleteMany({$or: [{userId}, {userAgent}]})` and return
`result.deletedCount > 0`; the catch branch (database error, modelled by
`dbOk = false`) deletes nothing, logs, and returns `false`.  The result is
the returned boolean paired with the collection after the deletion. -/
def revokeUserRefreshTokensByUserAgent (dbOk : Bool) (userId : Nat)
    (userAgent : String) (store : List RefreshTokenRecord) :
    Bool × List RefreshTokenRecord :=
  if dbOk then
    let deletedCount :=
      (store.filter (fun r =>
        decide (r.userId = userId ∨ r.userAgent = userAgent))).length
    (decide (deletedCount > 0),
     store.filter (fun r =>
       decide (¬(r.userId = userId ∨ r.userAgent = userAgent))))
  else (false, store)

/-- `RefreshTokenController.createRefreshToken`
(src/controllers/RefreshTokenController.ts lines 47-65): saves the new
document and returns it; the catch branch (save failed, modelled by
`dbOk = false`) logs and returns null, leaving the collection unchanged. -/
def createRefreshToken (dbOk : Bool) (record : RefreshTokenRecord)
    (store : List RefreshTokenRecord) :
    Option RefreshTokenRecord × List RefreshTokenRecord :=
  if dbOk then (some record, store ++ [record])
  else (none, store)

/-- `RefreshTokenController.findRefreshToken`
(src/controllers/RefreshTokenController.ts lines 74-93):
`findOne({refreshToken: token, userAgent})` — an exact match on both columns,
with no expiry condition in the query itself (expiry is the TTL index's
job). -/
def findRefreshToken (token : SignedToken) (userAgent : String)
    (store : List RefreshTokenRecord) : Option RefreshTokenRecord :=
  store.find? (fun r =>
    decide (r.refreshToken = token ∧ r.userAgent = userAgent))

/-- The user-record fields the login flow reads (src/database/models/
UserModel.ts): `_id`/`id` (the same Mongo identifier, modelled as `Nat`),
`email`, stored `password` hash, `role` (schema default "user") and stored
`permissions` bitfield (schema default `PermissionsBitfield.DEFAULT`). -/
structure IUser where
  id : Nat
  email : String
  password : String
  role : RoleNames
  permissions : Nat
  full_name : String
deriving DecidableEq

/-- `UserController.findByUserEmail` (src/controllers/UserController.ts lines
27-34): `findOne({email})` over the users collection. -/
def findByUserEmail (users : List IUser) (email : String) : Option IUser :=
  users.find? (fun u => decide (u.email = email))

/-- Outcome of the login route handler: `next(new BadRequestError msg)`
(status 400, src/errors/BadRequestError.ts), `next(new ServerFailedError
msg)` (status 500, src/errors/ServerFailedError.ts), or
`res.status(201).json(response)` together with the refresh-token collection
as the handler leaves it. -/
inductive LoginOutcome where
  | badRequest (message : String)
  | serverFailed (message : String)
  | created (access_token : SignedToken) (expires_in : Nat)
      (refresh_token : SignedToken) (store : List RefreshTokenRecord)
deriving DecidableEq

/-- The HTTP status a login outcome is converted to (BadRequestError carries
400, ServerFailedError carries 500, the success path responds 201). -/
def LoginOutcome.statusCode : LoginOutcome → Nat
  | .badRequest _ => 400
  | .serverFailed _ => 500
  | .created _ _ _ _ => 201

/-- The login route handler (src/routes/auth/login.ts lines 210-333).
Inputs: the configuration, the users collection, the bcrypt `comparePassword`
collaborator, success oracles for the two signing calls and the two
store calls, the request body fields (`none` models an absent or falsy
field), the `User-Agent` header, the refresh-token collection, and the
current time `nowMs` in milliseconds (`Date.now()`).  The JWT layer works in
seconds, so signing happens at `nowMs / 1000`.  Note that the handler awaits
the revoke and create calls but ignores their results, and that the stored
`expiresAt` is `Date.now() + configuration.REFRESH_TOKEN_EXPIRES_IN` — the
configured value added to a millisecond clock. -/
def login (cfg : Configuration) (users : List IUser)
    (comparePassword : String → String → Bool)
    (signOkAccess signOkRefresh revokeDbOk createDbOk : Bool)
    (email password userAgent : Option String)
    (store : List RefreshTokenRecord) (nowMs : Nat) : LoginOutcome :=
  match email, password with
  | some email, some password =>
    match findByUserEmail users email with
    | none => .badRequest "The user is not registered."
    | some existingUser =>
      if comparePassword password existingUser.password then
        let payload : IPayload :=
          { id := existingUser.id, role := existingUser.role,
            permissions := existingUser.permissions,
            full_name := existingUser.full_name }
        match generateAccessToken cfg signOkAccess payload (nowMs / 1000) with
        | none => .serverFailed "Failed to generate access token."
        | some accessTokenResult =>
          match generateRefreshToken cfg signOkRefresh payload
              (nowMs / 1000) with
          | none => .serverFailed "Failed to generate refresh token."
          | some refreshTokenResult =>
            match userAgent with
            | none => .badRequest "User-Agent header is missing"
            | some ua =>
              let afterRevoke := revokeUserRefreshTokensByUserAgent revokeDbOk
                existingUser.id ua store
              let afterCreate := createRefreshToken createDbOk
                { userId := existingUser.id,
                  refreshToken := refreshTokenResult.refreshToken,
                  expiresAt := nowMs + cfg.REFRESH_TOKEN_EXPIRES_IN,
                  userAgent := ua, createdAt := nowMs }
                afterRevoke.2
              .created accessTokenResult.accessToken
                accessTokenResult.expiresIn refreshTokenResult.refreshToken
                afterCreate.2
      else .badRequest "Password is incorrect."
  | _, _ => .badRequest "Email and password are required fields."

/-- Outcome of the refresh-token route handler: error via `next`, or
`res.status(201)` with the new access token and its lifetime. -/
inductive RefreshOutcome where
  | badRequest (message : String)
  | serverFailed (message : String)
  | created (access_token : SignedToken) (expires_in : Nat)
deriving DecidableEq

/-- HTTP status of a refresh outcome (same error classes as login). -/
def RefreshOutcome.statusCode : RefreshOutcome → Nat
  | .badRequest _ => 400
  | .serverFailed _ => 500
  | .created _ _ => 201

/-- The refresh-token route handler (src/routes/auth/refresh-token.ts lines
24-93).  `reqUser` is the principal the authentication middleware attached to
`req.user` from the bearer access token; `body` is the `refresh_token` body
field; the collection query runs against the TTL-purged view of the store at
`nowMs`. -/
def refreshToken (cfg : Configuration) (body : Option SignedToken)
    (reqUser : IPayload) (userAgent : Option String) (signOkAccess : Bool)
    (store : List RefreshTokenRecord) (nowMs : Nat) : RefreshOutcome :=
  match body with
  | none => .badRequest "refresh_token required field."
  | some refresh_token =>
    match verifyRefreshToken cfg refresh_token (nowMs / 1000) with
    | none => .badRequest "Invalid refresh token."
    | some _ =>
      match userAgent with
      | none => .badRequest "user agent missing"
      | some ua =>
        match findRefreshToken refresh_token ua (ttlPurge nowMs store) with
        | none => .badRequest "Invalid refresh token."
        | some _ =>
          match generateAccessToken cfg signOkAccess reqUser
              (nowMs / 1000) with
          | none => .serverFailed "Failed to generate token."
          | some r => .created r.accessToken r.expiresIn

/-- The payload literal the login handler builds from the found user record
(src/routes/auth/login.ts lines 261-266): stored role, stored permissions
bitfield, full name. -/
def payloadOf (u : IUser) : IPayload :=
  { id := u.id, role := u.role, permissions := u.permissions,
    full_name := u.full_name }

/-- The database-level constraint declared by `userAgent: {unique: true}` in
refreshTokenSchema (src/database/models/RefreshTokenModel.ts lines 41-45): a
unique index on the `userAgent` column alone, i.e. any two stored documents
carry distinct `userAgent` values. -/
def schemaUserAgentUnique (store : List RefreshTokenRecord) : Prop :=
  store.Pairwise (fun r1 r2 => r1.userAgent ≠ r2.userAgent)

/-- Spec-side comparison predicate: at most one record per (user,
client-context) pair, i.e. no two stored documents agree on both `userId`
and `userAgent`. -/
def pairUnique (store : List RefreshTokenRecord) : Prop :=
  store.Pairwise (fun r1 r2 => ¬(r1.userId = r2.userId ∧ r1.userAgent = r2.userAgent))

/-- Concrete configuration used by witnesses: distinct secrets, access
lifetime 100 s, refresh lifetime 604800 s (7 days). -/
def cfgW : Configuration :=
  { SECRET_KEY := "access-secret", EXPIRES_IN := 100,
    REFRESH_TOKEN_SECRET_KEY := "refresh-secret",
    REFRESH_TOKEN_EXPIRES_IN := 604800 }

/-- Concrete user record whose stored `role` is admin while its stored
`permissions` field still holds the schema default `DEFAULT` bit. -/
def adminUser : IUser :=
  { id := 1, email := "a@b.com", password := "hashedpw", role := .admin,
    permissions := PermissionsBitfield.DEFAULT, full_name := "A B" }

/-- Concrete freshly-registered user record: schema defaults role "user" and
permissions `DEFAULT`. -/
def plainUser : IUser :=
  { id := 2, email := "u@b.com", password := "hashedpw", role := .user,
    permissions := PermissionsBitfield.DEFAULT, full_name := "U V" }

/-- External bcrypt `comparePassword` collaborator reporting a match,
used to drive witnesses through the credential check. -/
def compareAlways : String → String → Bool := fun _ _ => true

/-- Concrete payload for witnesses. -/
def pW : IPayload := payloadOf adminUser

/-- Concrete signed token for store-level witnesses. -/
def tokW : SignedToken := jwtSign pW "refresh-secret" 604800 0

/-- Concrete stored record, client-context "X". -/
def recA : RefreshTokenRecord :=
  { userId := 1, refreshToken := tokW, expiresAt := 100, userAgent := "X",
    createdAt := 0 }

/-- Concrete stored record, same owner as `recA`, client-context "Y". -/
def recB : RefreshTokenRecord :=
  { userId := 1, refreshToken := tokW, expiresAt := 100, userAgent := "Y",
    createdAt := 0 }

/-- Concrete stored record, different owner than `recA` but the same
client-context "X". -/
def recSameUA : RefreshTokenRecord :=
  { userId := 2, refreshToken := tokW, expiresAt := 100, userAgent := "X",
    createdAt := 0 }

/-- Concrete access-token result minted at second 5 under `cfgW`. -/
def rW : ITokenResult :=
  { accessToken := jwtSign pW "access-secret" 100 5, expiresIn := 100 }

/-- Concrete refresh-token result minted at second 5 under `cfgW`. -/
def rrW : IRefreshTokenResult :=
  { refreshToken := jwtSign pW "refresh-secret" 604800 5 }

/-- Access token a login of `adminUser` at millisecond 0 mints. -/
def accessTokW : SignedToken := jwtSign pW "access-secret" 100 0

/-- Refresh token a login of `adminUser` at millisecond 0 mints. -/
def refreshTokW : SignedToken := jwtSign pW "refresh-secret" 604800 0

/-- Access token a login of `adminUser` at millisecond 1000000 mints
(the JWT layer signs at second 1000). -/
def accessTokC4 : SignedToken := jwtSign pW "access-secret" 100 1000

/-- Refresh token a login of `adminUser` at millisecond 1000000 mints. -/
def refreshTokC4 : SignedToken := jwtSign pW "refresh-secret" 604800 1000

/-- The refresh record a login of `adminUser` at millisecond 1000000 under
`cfgW` persists: `expiresAt` is the millisecond clock plus the raw
configured value. -/
def recC4 : RefreshTokenRecord :=
  { userId := 1, refreshToken := refreshTokC4, expiresAt := 1000000 + 604800,
    userAgent := "X", createdAt := 1000000 }

/-- Access token a login of `plainUser` at millisecond 0 mints. -/
def accessTokPlain : SignedToken :=
  jwtSign (payloadOf plainUser) "access-secret" 100 0

/-- Refresh token a login of `plainUser` at millisecond 0 mints. -/
def refreshTokPlain : SignedToken :=
  jwtSign (payloadOf plainUser) "refresh-secret" 604800 0

/-- The refresh record a login of `plainUser` at millisecond 0 under `cfgW`
persists. -/
def recPlain : RefreshTokenRecord :=
  { userId := 2, refreshToken := refreshTokPlain, expiresAt := 604800,
    userAgent := "X", createdAt := 0 }

end BlogApi

namespace BlogApi

/-- Helper: evaluation of a login that passes the credential checks (the user
is found and the password comparison succeeds) with both signing calls
succeeding: the handler responds 201 with the two freshly signed tokens, and
the collection is the result of the revoke call followed by the create
call. -/
theorem login_eval (cfg : Configuration) (users : List IUser)
    (compare : String → String → Bool) (revokeOk createOk : Bool)
    (email password ua : String) (store : List RefreshTokenRecord)
    (nowMs : Nat) (u : IUser)
    (hfind : findByUserEmail users email = some u)
    (hcmp : compare password u.password = true) :
    login cfg users compare true true revokeOk createOk (some email)
        (some password) (some ua) store nowMs
      = .created (jwtSign (payloadOf u) cfg.SECRET_KEY cfg.EXPIRES_IN (nowMs / 1000))
          cfg.EXPIRES_IN
          (jwtSign (payloadOf u) cfg.REFRESH_TOKEN_SECRET_KEY
            cfg.REFRESH_TOKEN_EXPIRES_IN (nowMs / 1000))
          (createRefreshToken createOk
            { userId := u.id,
              refreshToken := jwtSign (payloadOf u) cfg.REFRESH_TOKEN_SECRET_KEY
                cfg.REFRESH_TOKEN_EXPIRES_IN (nowMs / 1000),
              expiresAt := nowMs + cfg.REFRESH_TOKEN_EXPIRES_IN,
              userAgent := ua, createdAt := nowMs }
            (revokeUserRefreshTokensByUserAgent revokeOk u.id ua store).2).2 := by
  simp [login, hfind, hcmp, generateAccessToken, generateRefreshToken, payloadOf]

/-- Helper: when no stored record matches the presented token string together
with the client-context, the refresh flow answers with the invalid-token
error, whether the cryptographic check passes (record lookup then fails) or
fails outright. -/
theorem refreshToken_notFound_badRequest (cfg : Configuration)
    (tok : SignedToken) (reqUser : IPayload) (ua : String) (signOk : Bool)
    (store : List RefreshTokenRecord) (nowMs : Nat)
    (h : ∀ rec ∈ store, ¬(rec.refreshToken = tok ∧ rec.userAgent = ua)) :
    refreshToken cfg (some tok) reqUser (some ua) signOk store nowMs
      = .badRequest "Invalid refresh token." := by
  have hfind : findRefreshToken tok ua (ttlPurge nowMs store) = none := by
    rw [findRefreshToken, List.find?_eq_none]
    intro rec hrec
    have hmem : rec ∈ store := List.mem_of_mem_filter hrec
    simpa using h rec hmem
  unfold refreshToken
  cases hv : verifyRefreshToken cfg tok (nowMs / 1000) with
  | none => simp [hv]
  | some p => simp [hv, hfind]

/-- C9: For every role name in the fixed enumerated set (user, moderator,
admin), the bitfield computed by the Permission Model includes the baseline
capability bit (bit 0). -/
theorem calculatePermissions_includes_baseline (role : RoleNames) :
    Nat.testBit (calculatePermissions role) 0 = true := by
  cases role <;> decide

/-- Witness for C9 at the admin role. -/
theorem calculatePermissions_includes_baseline_witness :
    Nat.testBit (calculatePermissions .admin) 0 = true :=
  calculatePermissions_includes_baseline .admin

/-- C7: for every principal p, verifying the token produced by issuing an
access token for p against the access secret returns p as long as the
verification time is before the expiry second of the token; once the expiry
has passed, verification returns the invalid outcome (none). -/
theorem accessToken_roundTrip (cfg : Configuration) (p : IPayload)
    (tSec nowSec : Nat) (r : ITokenResult)
    (hgen : generateAccessToken cfg true p tSec = some r) :
    (nowSec < tSec + cfg.EXPIRES_IN →
      verifyAccessToken cfg r.accessToken nowSec = some p)
    ∧ (tSec + cfg.EXPIRES_IN ≤ nowSec →
      verifyAccessToken cfg r.accessToken nowSec = none) := by
  have hr : r = ⟨jwtSign p cfg.SECRET_KEY cfg.EXPIRES_IN tSec, cfg.EXPIRES_IN⟩ := by
    simpa [generateAccessToken] using hgen.symm
  subst hr
  constructor
  · intro hlt
    simp [verifyAccessToken, verifyToken, jwtVerify, jwtSign, hlt]
  · intro hge
    simp [verifyAccessToken, verifyToken, jwtVerify, jwtSign]
    omega

/-- Witness for C7: the token minted at second 5 with lifetime 100 verifies
at second 7 and is rejected at second 500. -/
theorem accessToken_roundTrip_witness :
    generateAccessToken cfgW true pW 5 = some rW
    ∧ ((7 : Nat) < 5 + cfgW.EXPIRES_IN
        ∧ verifyAccessToken cfgW rW.accessToken 7 = some pW)
    ∧ (5 + cfgW.EXPIRES_IN ≤ (500 : Nat)
        ∧ verifyAccessToken cfgW rW.accessToken 500 = none) :=
  ⟨rfl,
   ⟨by decide, (accessToken_roundTrip cfgW pW 5 7 rW rfl).1 (by decide)⟩,
   ⟨by decide, (accessToken_roundTrip cfgW pW 5 500 rW rfl).2 (by decide)⟩⟩

/-- C8: assuming the two configured secrets differ, a token issued with the
access-signing secret fails verifyRefresh and a token issued with the
refresh-signing secret fails verifyAccess, at every verification time. -/
theorem secret_isolation (cfg : Configuration) (p : IPayload)
    (tSec nowSec : Nat) (ra : ITokenResult) (rr : IRefreshTokenResult)
    (hsec : cfg.SECRET_KEY ≠ cfg.REFRESH_TOKEN_SECRET_KEY)
    (hga : generateAccessToken cfg true p tSec = some ra)
    (hgr : generateRefreshToken cfg true p tSec = some rr) :
    verifyRefreshToken cfg ra.accessToken nowSec = none
    ∧ verifyAccessToken cfg rr.refreshToken nowSec = none := by
  have hra : ra = ⟨jwtSign p cfg.SECRET_KEY cfg.EXPIRES_IN tSec, cfg.EXPIRES_IN⟩ := by
    simpa [generateAccessToken] using hga.symm
  have hrr : rr = ⟨jwtSign p cfg.REFRESH_TOKEN_SECRET_KEY cfg.REFRESH_TOKEN_EXPIRES_IN tSec⟩ := by
    simpa [generateRefreshToken] using hgr.symm
  subst hra
  subst hrr
  constructor
  · simp [verifyRefreshToken, verifyToken, jwtVerify, jwtSign, hsec]
  · simp [verifyAccessToken, verifyToken, jwtVerify, jwtSign, Ne.symm hsec]

/-- Witness for C8 under the concrete configuration with distinct secrets. -/
theorem secret_isolation_witness :
    cfgW.SECRET_KEY ≠ cfgW.REFRESH_TOKEN_SECRET_KEY
    ∧ generateAccessToken cfgW true pW 5 = some rW
    ∧ generateRefreshToken cfgW true pW 5 = some rrW
    ∧ verifyRefreshToken cfgW rW.accessToken 6 = none
    ∧ verifyAccessToken cfgW rrW.refreshToken 6 = none :=
  ⟨by decide, rfl, rfl,
   (secret_isolation cfgW pW 5 6 rW rrW (by decide) rfl rfl).1,
   (secret_isolation cfgW pW 5 6 rW rrW (by decide) rfl rfl).2⟩

/-- C3: against the TTL-purged view of the collection, findRefreshToken
returns a record only when it matches both the token string and the
client-context exactly and its expiry has not yet passed, and a stored
record whose expiry has passed is never returned. -/
theorem findRefreshToken_live (store : List RefreshTokenRecord)
    (tok : SignedToken) (ua : String) (nowMs : Nat) :
    (∀ r, findRefreshToken tok ua (ttlPurge nowMs store) = some r →
      r.refreshToken = tok ∧ r.userAgent = ua ∧ nowMs < r.expiresAt)
    ∧ ∀ r ∈ store, r.expiresAt ≤ nowMs →
      findRefreshToken tok ua (ttlPurge nowMs store) ≠ some r := by
  constructor
  · intro r hfind
    have hp := List.find?_some hfind
    have hmem := List.mem_of_find?_eq_some hfind
    rw [ttlPurge, List.mem_filter] at hmem
    simp only [decide_eq_true_eq] at hp
    exact ⟨hp.1, hp.2, by simpa using hmem.2⟩
  · intro r _ hexp heq
    have hmem := List.mem_of_find?_eq_some heq
    rw [ttlPurge, List.mem_filter] at hmem
    have hlt : nowMs < r.expiresAt := by simpa using hmem.2
    omega

/-- Witness for C3: at millisecond 50 the record (expiry 100) is found with
exact matches; at millisecond 150 the same stored record behaves as
absent. -/
theorem findRefreshToken_live_witness :
    (findRefreshToken tokW "X" (ttlPurge 50 [recA]) = some recA
      ∧ recA.refreshToken = tokW ∧ recA.userAgent = "X"
      ∧ 50 < recA.expiresAt)
    ∧ (recA ∈ [recA] ∧ recA.expiresAt ≤ 150
      ∧ findRefreshToken tokW "X" (ttlPurge 150 [recA]) ≠ some recA) :=
  ⟨⟨by decide, (findRefreshToken_live [recA] tokW "X" 50).1 recA (by decide)⟩,
   ⟨by decide, by decide,
    (findRefreshToken_live [recA] tokW "X" 150).2 recA (by decide) (by decide)⟩⟩

/-- C6 counterexample: the revoke operation does not return the number of
records revoked — two stores from which it deletes different numbers of
records (1 and 2) get back the very same return value, the boolean true. -/
theorem revoke_returns_bool_counterexample :
    (revokeUserRefreshTokensByUserAgent true 1 "Z" [recA]).1
      = (revokeUserRefreshTokensByUserAgent true 1 "Z" [recA, recB]).1
    ∧ [recA].length
        - (revokeUserRefreshTokensByUserAgent true 1 "Z" [recA]).2.length = 1
    ∧ [recA, recB].length
        - (revokeUserRefreshTokensByUserAgent true 1 "Z" [recA, recB]).2.length
      = 2 := by
  decide

/-- C6 amended: revokeUserRefreshTokensByUserAgent deletes exactly those
records whose owner matches userId or whose client-context matches
userAgent, and returns a boolean that is true exactly when at least one
record was revoked (not the revoked count). -/
theorem revoke_deletes_matching (userId : Nat) (ua : String)
    (store : List RefreshTokenRecord) :
    (∀ r, r ∈ (revokeUserRefreshTokensByUserAgent true userId ua store).2 ↔
      r ∈ store ∧ ¬(r.userId = userId ∨ r.userAgent = ua))
    ∧ ((revokeUserRefreshTokensByUserAgent true userId ua store).1 = true ↔
      ∃ r ∈ store, r.userId = userId ∨ r.userAgent = ua) := by
  constructor
  · intro r
    simp [revokeUserRefreshTokensByUserAgent, List.mem_filter]
  · have hred : (revokeUserRefreshTokensByUserAgent true userId ua store).1
        = decide (0 < (store.filter (fun r =>
            decide (r.userId = userId ∨ r.userAgent = ua))).length) := rfl
    rw [hred, decide_eq_true_eq]
    constructor
    · intro h
      obtain ⟨r, hrmem⟩ :=
        List.exists_mem_of_ne_nil _ (List.length_pos.mp h)
      have hsplit := List.mem_filter.mp hrmem
      exact ⟨r, hsplit.1, of_decide_eq_true hsplit.2⟩
    · rintro ⟨r, hr, hmatch⟩
      exact List.length_pos.mpr
        (List.ne_nil_of_mem (List.mem_filter.mpr ⟨hr, decide_eq_true hmatch⟩))

/-- Witness for C6 amended: a store whose single record matches neither the
user id nor the client-context keeps its record and reports false. -/
theorem revoke_deletes_matching_witness :
    (recB ∈ (revokeUserRefreshTokensByUserAgent true 7 "Z" [recB]).2 ↔
      recB ∈ [recB] ∧ ¬(recB.userId = 7 ∨ recB.userAgent = "Z")) :=
  (revoke_deletes_matching 7 "Z" [recB]).1 recB

/-- C10: the schema declares a unique constraint on the client-context
(userAgent) field alone, so under that constraint any two stored records
have distinct userAgent values; hence at most one record exists per
client-context string across all users, and the constraint is strictly
stronger than uniqueness per (user, client-context) pair — a store with two
owners sharing one context satisfies pair uniqueness but violates the
schema constraint. -/
theorem schema_userAgent_unique_stronger :
    (∀ s, schemaUserAgentUnique s → pairUnique s)
    ∧ (∀ s c, schemaUserAgentUnique s →
        ((s.filter (fun r => decide (r.userAgent = c))).length ≤ 1))
    ∧ (pairUnique [recA, recSameUA]
        ∧ ¬ schemaUserAgentUnique [recA, recSameUA]) := by
  refine ⟨?_, ?_, ?_, ?_⟩
  · intro s h
    exact h.imp (fun hne hc => hne hc.2)
  · intro s c h
    induction s with
    | nil => simp
    | cons r t ih =>
      rw [schemaUserAgentUnique, List.pairwise_cons] at h
      by_cases hc : r.userAgent = c
      · have hnil : t.filter (fun x => decide (x.userAgent = c)) = [] := by
          rw [List.filter_eq_nil_iff]
          intro x hx
          simp only [decide_eq_true_eq]
          intro hxc
          exact h.1 x hx (hc.trans hxc.symm)
        simp [List.filter_cons, hc, hnil]
      · simp only [List.filter_cons, decide_eq_true_eq, hc, if_false]
        exact ih h.2
  · unfold pairUnique
    decide
  · unfold schemaUserAgentUnique
    decide

/-- Witness for C10: a two-record store with distinct contexts satisfies the
schema constraint, and therefore pair uniqueness. -/
theorem schema_userAgent_unique_stronger_witness :
    schemaUserAgentUnique [recA, recB] ∧ pairUnique [recA, recB] :=
  ⟨by unfold schemaUserAgentUnique; decide,
   schema_userAgent_unique_stronger.1 [recA, recB]
     (by unfold schemaUserAgentUnique; decide)⟩

/-- C5 counterexample: a login of a user record whose stored role is admin
but whose stored permissions field still holds the schema default bit
reaches token issuance with bitfield 1 embedded in the payload, while the
Permission Model computes 7 for the admin role — the handler never invokes
calculatePermissions. -/
theorem login_permissions_counterexample :
    login cfgW [adminUser] compareAlways true true true true (some "a@b.com")
        (some "pw") (some "X") [] 0
      = .created accessTokW 100 refreshTokW
          [{ userId := 1, refreshToken := refreshTokW, expiresAt := 604800,
             userAgent := "X", createdAt := 0 }]
    ∧ accessTokW.payload.permissions = 1
    ∧ calculatePermissions adminUser.role = 7
    ∧ accessTokW.payload.permissions ≠ calculatePermissions adminUser.role := by
  refine ⟨by decide, by decide, by decide, by decide⟩

/-- C5 amended: for every login that reaches token issuance, the capability
bitfield embedded in both minted tokens equals the stored permissions field
of the found user record (not a value recomputed from the role); it
coincides with the Permission Model computation exactly when the stored
field does, as it does for records carrying the schema defaults. -/
theorem login_payload_permissions_from_record (cfg : Configuration)
    (users : List IUser) (compare : String → String → Bool)
    (email password ua : String) (store : List RefreshTokenRecord)
    (nowMs : Nat) (u : IUser)
    (hfind : findByUserEmail users email = some u)
    (hcmp : compare password u.password = true) :
    ∀ a e r s', login cfg users compare true true true true (some email)
        (some password) (some ua) store nowMs = .created a e r s' →
      a.payload.permissions = u.permissions
      ∧ r.payload.permissions = u.permissions
      ∧ (u.permissions = calculatePermissions u.role →
          a.payload.permissions = calculatePermissions u.role) := by
  intro a e r s' h
  rw [login_eval cfg users compare true true email password ua store nowMs u
    hfind hcmp] at h
  cases h
  exact ⟨rfl, rfl, fun h2 => h2⟩

/-- Witness for C5 amended: a freshly-registered user (role "user", stored
permissions DEFAULT) logs in and the embedded bitfield is the stored field,
which here equals the Permission Model value for the role. -/
theorem login_payload_permissions_from_record_witness :
    accessTokPlain.payload.permissions = plainUser.permissions
    ∧ refreshTokPlain.payload.permissions = plainUser.permissions
    ∧ (plainUser.permissions = calculatePermissions plainUser.role →
        accessTokPlain.payload.permissions
          = calculatePermissions plainUser.role) :=
  login_payload_permissions_from_record cfgW [plainUser] compareAlways
    "u@b.com" "pw" "X" [] 0 plainUser (by decide) rfl
    accessTokPlain 100 refreshTokPlain [recPlain] (by decide)

/-- C4 (unit mismatch in the persisted expiry): a login of `adminUser` at
millisecond 1000000 under `cfgW` (refresh lifetime 604800, used as seconds
by the JWT layer) persists a record whose expiresAt is the millisecond
creation clock plus the raw configured number — creation plus 604800
milliseconds, not creation plus 604800 seconds — while the refresh JWT
itself expires 604800 seconds after signing. -/
theorem refreshRecord_expiry_unit_mismatch :
    login cfgW [adminUser] compareAlways true true true true (some "a@b.com")
        (some "pw") (some "X") [] 1000000
      = .created accessTokC4 100 refreshTokC4 [recC4]
    ∧ recC4.expiresAt = recC4.createdAt + cfgW.REFRESH_TOKEN_EXPIRES_IN
    ∧ recC4.expiresAt ≠ recC4.createdAt + 1000 * cfgW.REFRESH_TOKEN_EXPIRES_IN
    ∧ refreshTokC4.exp = 1000000 / 1000 + cfgW.REFRESH_TOKEN_EXPIRES_IN := by
  refine ⟨by decide, by decide, by decide, by decide⟩

/-- C1 counterexample: with both tokens successfully minted and the
create-refresh-record step failing (its catch branch returns null, which the
handler ignores), login still responds 201 carrying the minted token pair —
not a server fault. -/
theorem login_persist_failure_counterexample :
    login cfgW [adminUser] compareAlways true true true false (some "a@b.com")
        (some "pw") (some "X") [] 0
      = .created accessTokW 100 refreshTokW []
    ∧ (login cfgW [adminUser] compareAlways true true true false
        (some "a@b.com") (some "pw") (some "X") [] 0).statusCode = 201 := by
  refine ⟨by decide, by decide⟩

/-- C1 amended: when the create-refresh-record step fails after both tokens
were minted, the login handler swallows the failure and responds 201 with
the minted pair; the refresh record is not persisted (no record for the
client-context survives), so presenting the minted refresh token to the
refresh flow later yields the invalid-token outcome. -/
theorem login_createFailure_still_201 (cfg : Configuration)
    (users : List IUser) (compare : String → String → Bool)
    (email password ua : String) (store : List RefreshTokenRecord)
    (nowMs : Nat) (u : IUser)
    (hfind : findByUserEmail users email = some u)
    (hcmp : compare password u.password = true) :
    ∃ a e r s',
      login cfg users compare true true true false (some email)
          (some password) (some ua) store nowMs = .created a e r s'
      ∧ (LoginOutcome.created a e r s').statusCode = 201
      ∧ (∀ rec ∈ s', rec.userAgent ≠ ua)
      ∧ ∀ reqUser nowMs2,
          refreshToken cfg (some r) reqUser (some ua) true s' nowMs2
            = .badRequest "Invalid refresh token." := by
  have hlogin := login_eval cfg users compare true false email password ua
    store nowMs u hfind hcmp
  refine ⟨_, _, _, _, hlogin, rfl, ?_, ?_⟩
  · intro rec hrec
    simp only [createRefreshToken, if_neg Bool.false_ne_true] at hrec
    have hsplit := List.mem_filter.mp
      ((by simpa [revokeUserRefreshTokensByUserAgent] using hrec :
        rec ∈ store.filter (fun r =>
          decide (¬(r.userId = u.id ∨ r.userAgent = ua)))))
    intro hua
    exact of_decide_eq_true hsplit.2 (Or.inr hua)
  · intro reqUser nowMs2
    apply refreshToken_notFound_badRequest
    intro rec hrec hcontra
    simp only [createRefreshToken, if_neg Bool.false_ne_true] at hrec
    have hsplit := List.mem_filter.mp
      ((by simpa [revokeUserRefreshTokensByUserAgent] using hrec :
        rec ∈ store.filter (fun r =>
          decide (¬(r.userId = u.id ∨ r.userAgent = ua)))))
    exact of_decide_eq_true hsplit.2 (Or.inr hcontra.2)

/-- Witness for C1 amended, at the concrete failing-create login. -/
theorem login_createFailure_still_201_witness :
    ∃ a e r s',
      login cfgW [adminUser] compareAlways true true true false
          (some "a@b.com") (some "pw") (some "X") [] 0 = .created a e r s'
      ∧ (LoginOutcome.created a e r s').statusCode = 201
      ∧ (∀ rec ∈ s', rec.userAgent ≠ "X")
      ∧ ∀ reqUser nowMs2,
          refreshToken cfgW (some r) reqUser (some "X") true s' nowMs2
            = .badRequest "Invalid refresh token." :=
  login_createFailure_still_201 cfgW [adminUser] compareAlways "a@b.com" "pw"
    "X" [] 0 adminUser (by decide) rfl

/-- Helper: the collection a successful revoke-then-create leaves behind is
the store with every record matching the user id or the client-context
removed and the new record appended. -/
theorem createAfterRevoke_eq (uid : Nat) (ua : String)
    (rec : RefreshTokenRecord) (store : List RefreshTokenRecord) :
    (createRefreshToken true rec
      (revokeUserRefreshTokensByUserAgent true uid ua store).2).2
    = store.filter (fun r =>
        decide (¬(r.userId = uid ∨ r.userAgent = ua))) ++ [rec] := by
  simp [createRefreshToken, revokeUserRefreshTokensByUserAgent]

/-- Helper: any record of the post-login collection carrying the login
client-context is the record that login created. -/
theorem mem_afterLogin_ua (uid : Nat) (ua : String)
    (rec : RefreshTokenRecord) (store : List RefreshTokenRecord)
    (rec' : RefreshTokenRecord)
    (h : rec' ∈ store.filter (fun r =>
      decide (¬(r.userId = uid ∨ r.userAgent = ua))) ++ [rec])
    (hua : rec'.userAgent = ua) : rec' = rec := by
  rcases List.mem_append.mp h with hl | hr
  · exact absurd (Or.inr hua) (of_decide_eq_true (List.mem_filter.mp hl).2)
  · simpa using hr

/-- Helper: after a successful revoke-then-create, the TTL-purged collection
holds exactly one record for the (user, client-context) pair, provided the
new record is still live. -/
theorem afterLogin_pair_count (uid : Nat) (ua : String)
    (rec : RefreshTokenRecord) (store : List RefreshTokenRecord) (nowMs : Nat)
    (hP : rec.userId = uid ∧ rec.userAgent = ua)
    (hlive : nowMs < rec.expiresAt) :
    ((ttlPurge nowMs (store.filter (fun r =>
        decide (¬(r.userId = uid ∨ r.userAgent = ua))) ++ [rec])).filter
      (fun r => decide (r.userId = uid ∧ r.userAgent = ua))).length = 1 := by
  rw [ttlPurge, List.filter_append, List.filter_append]
  have h1 : ((store.filter (fun r =>
      decide (¬(r.userId = uid ∨ r.userAgent = ua)))).filter
        (fun r => decide (nowMs < r.expiresAt))).filter
      (fun r => decide (r.userId = uid ∧ r.userAgent = ua)) = [] := by
    rw [List.filter_eq_nil_iff]
    intro r hr
    have hrA : r ∈ store.filter (fun r =>
        decide (¬(r.userId = uid ∨ r.userAgent = ua))) :=
      (List.mem_filter.mp hr).1
    have hno := of_decide_eq_true (List.mem_filter.mp hrA).2
    simp only [decide_eq_true_eq]
    intro hc
    exact hno (Or.inl hc.1)
  have h2 : ([rec].filter (fun r => decide (nowMs < r.expiresAt))).filter
      (fun r => decide (r.userId = uid ∧ r.userAgent = ua)) = [rec] := by
    simp [List.filter_cons, hlive, hP.1, hP.2]
  rw [h1, h2]
  rfl

/-- C2: after a second login for the same user and client-context completes
(both logins pass the credential checks, the two signing instants fall in
distinct seconds, and the configured refresh lifetime is positive), exactly
one live refresh record exists for that (user, client-context) pair, and
presenting the first login refresh token to the refresh flow yields the
invalid-token outcome. -/
theorem second_login_one_live_record (cfg : Configuration)
    (users : List IUser) (compare : String → String → Bool)
    (email password ua : String) (s0 : List RefreshTokenRecord)
    (t1 t2 : Nat) (u : IUser)
    (hfind : findByUserEmail users email = some u)
    (hcmp : compare password u.password = true)
    (hlife : 0 < cfg.REFRESH_TOKEN_EXPIRES_IN)
    (hiat : t1 / 1000 ≠ t2 / 1000) :
    ∃ a1 e1 r1 s1 a2 e2 r2 s2,
      login cfg users compare true true true true (some email) (some password)
          (some ua) s0 t1 = .created a1 e1 r1 s1
      ∧ login cfg users compare true true true true (some email)
          (some password) (some ua) s1 t2 = .created a2 e2 r2 s2
      ∧ ((ttlPurge t2 s2).filter (fun rec =>
          decide (rec.userId = u.id ∧ rec.userAgent = ua))).length = 1
      ∧ ∀ reqUser t3,
          refreshToken cfg (some r1) reqUser (some ua) true s2 t3
            = .badRequest "Invalid refresh token." := by
  have h1 := login_eval cfg users compare true true email password ua s0 t1 u
    hfind hcmp
  rw [createAfterRevoke_eq] at h1
  have h2 := login_eval cfg users compare true true email password ua
    (s0.filter (fun r => decide (¬(r.userId = u.id ∨ r.userAgent = ua)))
      ++ [⟨u.id, jwtSign (payloadOf u) cfg.REFRESH_TOKEN_SECRET_KEY
            cfg.REFRESH_TOKEN_EXPIRES_IN (t1 / 1000),
          t1 + cfg.REFRESH_TOKEN_EXPIRES_IN, ua, t1⟩]) t2 u hfind hcmp
  rw [createAfterRevoke_eq] at h2
  refine ⟨_, _, _, _, _, _, _, _, h1, h2, ?_, ?_⟩
  · exact afterLogin_pair_count u.id ua _ _ t2 ⟨rfl, rfl⟩
      (Nat.lt_add_of_pos_right hlife)
  · intro reqUser t3
    apply refreshToken_notFound_badRequest
    intro rec hrec hcontra
    have heq := mem_afterLogin_ua u.id ua _ _ rec hrec hcontra.2
    rw [heq] at hcontra
    have hiat2 : t2 / 1000 = t1 / 1000 := congrArg SignedToken.iat hcontra.1
    exact hiat hiat2.symm

/-- Witness for C2: two logins of `adminUser` at milliseconds 0 and 1000
under the concrete configuration. -/
theorem second_login_one_live_record_witness :
    ∃ a1 e1 r1 s1 a2 e2 r2 s2,
      login cfgW [adminUser] compareAlways true true true true
          (some "a@b.com") (some "pw") (some "X") [] 0 = .created a1 e1 r1 s1
      ∧ login cfgW [adminUser] compareAlways true true true true
          (some "a@b.com") (some "pw") (some "X") s1 1000
        = .created a2 e2 r2 s2
      ∧ ((ttlPurge 1000 s2).filter (fun rec =>
          decide (rec.userId = adminUser.id ∧ rec.userAgent = "X"))).length = 1
      ∧ ∀ reqUser t3,
          refreshToken cfgW (some r1) reqUser (some "X") true s2 t3
            = .badRequest "Invalid refresh token." :=
  second_login_one_live_record cfgW [adminUser] compareAlways "a@b.com" "pw"
    "X" [] 0 1000 adminUser (by decide) rfl (by decide) (by decide)

end BlogApi
